import Mathlib

/-!
Verification development for the Eco-Approach-And-Departure repository.

The three core components are shallowly embedded from the Python sources:

* `Python Code/GreenWindowEstimator.py` — signal-phase tracker (`trackerCore`),
* `Python Code/DMSI.py` — scenario classifier (`dmsiCore`, `identify_scenario`),
* `Python Code/DMTG.py` — trajectory planner (`plannerCore`, `compute_velocity_profile`).

Modelling conventions:

* Python floats are modelled as exact rationals; an IEEE NaN is modelled as
  `none` in the type `PF := Option ℚ`.  Every comparison against NaN is false
  in Python, which `pflt`/`pfle` reproduce.  Arithmetic on NaN yields NaN.
* A Python float division whose divisor is the float `0.0` raises
  `ZeroDivisionError`; operations that can raise run in `Except PyError`.
* `np.sqrt` of a negative argument yields NaN (with a warning).  The numeric
  value of `np.sqrt` (and `np.cos`) on valid arguments is not needed by any
  theorem below, so both are abstracted as an explicit parameter `F : FloatOps`;
  all general theorems are universally quantified over `F`, hence hold in
  particular for the true IEEE implementations.
* `np.pi` is the IEEE-754 double 884279719003555/2^48.
* Numeric literals such as `56.33`, `0.1`, `1e-6` are read as exact rationals.
-/

/-- Python float values: `none` models IEEE NaN, `some q` a finite value. -/
abbrev PF := Option ℚ

/-- Errors a Python execution of the embedded code can raise. -/
inductive PyError where
  | zeroDivisionError
  | valueError
  | unboundLocalError
  | typeError
  | indexError
deriving DecidableEq, Repr

/-- Python `a < b` on floats: false whenever either side is NaN. -/
def pflt : PF → PF → Bool
  | some x, some y => decide (x < y)
  | _, _ => false

/-- Python `a <= b` on floats: false whenever either side is NaN. -/
def pfle : PF → PF → Bool
  | some x, some y => decide (x ≤ y)
  | _, _ => false

/-- Float addition; NaN propagates. -/
def padd : PF → PF → PF
  | some x, some y => some (x + y)
  | _, _ => none

/-- Float subtraction; NaN propagates. -/
def psub : PF → PF → PF
  | some x, some y => some (x - y)
  | _, _ => none

/-- Float multiplication; NaN propagates. -/
def pmul : PF → PF → PF
  | some x, some y => some (x * y)
  | _, _ => none

/-- Float absolute value; NaN propagates. -/
def pabs : PF → PF
  | some x => some |x|
  | none => none

/-- Python float division.  A divisor equal to the float `0.0` raises
`ZeroDivisionError` (also for a NaN dividend); a NaN divisor or dividend
otherwise yields NaN. -/
def pdiv (a b : PF) : Except PyError PF :=
  match b with
  | some y =>
    if y = 0 then .error .zeroDivisionError
    else .ok (match a with | some x => some (x / y) | none => none)
  | none => .ok none

/-- Float division by a constant known to be nonzero (no exception possible). -/
def pdivc (a : PF) (c : ℚ) : PF :=
  match a with
  | some x => some (x / c)
  | none => none

/-- Python `min(a, b)`: returns `b` if `b < a` else `a` (hence NaN-position
dependent, exactly like CPython). -/
def pymin (a b : PF) : PF := if pflt b a then b else a

/-- Python `max(a, b)`: returns `b` if `a < b` else `a`. -/
def pymax (a b : PF) : PF := if pflt a b then b else a

/-- Python `min` over a list (`none` for the empty list, which raises
`ValueError` at the call sites that demand a value). -/
def pyminList : List PF → Option PF
  | [] => none
  | x :: xs => some (xs.foldl pymin x)

/-- Abstracted transcendental primitives of `numpy` used by the sources.
Their numeric values never influence the theorems below, which hold for every
implementation; witnesses instantiate them arbitrarily. -/
structure FloatOps where
  sqrt : ℚ → ℚ
  cos : ℚ → ℚ

/-- A concrete instantiation of `FloatOps` used by closed witnesses. -/
def idOps : FloatOps := ⟨fun x => x, fun x => x⟩

/-- `np.sqrt`: NaN on a negative argument, otherwise the abstracted root. -/
def psqrt (F : FloatOps) : PF → PF
  | some x => if x < 0 then none else some (F.sqrt x)
  | none => none

/-- `np.cos`; NaN propagates. -/
def pcos (F : FloatOps) : PF → PF
  | some x => some (F.cos x)
  | none => none

/-- Rational division raising `ZeroDivisionError` on a zero divisor (used where
the Python operands are plainly finite). -/
def qdiv (a b : ℚ) : Except PyError ℚ :=
  if b = 0 then .error .zeroDivisionError else .ok (a / b)

/-- The IEEE-754 double value of `np.pi`. -/
def npPi : ℚ := 884279719003555 / 281474976710656

/-- Shared constant of DMSI.py and DMTG.py: maximum acceleration (m/s²). -/
def aMax : ℚ := 1

/-- Shared constant: maximum deceleration (m/s²). -/
def dMax : ℚ := 1

/-- Shared constant: maximum jerk (m/s³). -/
def jerkMax : ℚ := 1

/-- Shared constant: speed limit, km/h (`v_limit = 56.33`). -/
def vLimitKmh : ℚ := 5633 / 100

/-- Shared constant: coasting speed, km/h (`v_coast = 12.87`). -/
def vCoastKmh : ℚ := 1287 / 100

/-- Speed limit in m/s (`v_limit_ms = v_limit * (5.0/18.0)`). -/
def vLimitMs : ℚ := vLimitKmh * (5 / 18)

/-- Coasting speed in m/s (`v_coast_ms = v_coast * (5.0/18.0)`). -/
def vCoastMs : ℚ := vCoastKmh * (5 / 18)

/-- The kinematic quantities computed by DMSI.py lines 88–102 (and identically
by DMTG.py lines 250–265). -/
structure Rates where
  vCms : ℚ
  p : PF
  q : PF
  tCr : PF
  tE : PF
  tL : PF
deriving DecidableEq, Repr

/-- DMSI.py lines 88–102: conversion to m/s, the rate parameters `p`, `q`, and
the thresholds `t_cr`, `t_e`, `t_l`, computed in source order (in particular
all divisions run before the speed guard of lines 104–114). -/
def computeRatesDMSI (F : FloatOps) (d0 vcKmh : ℚ) : Except PyError Rates := do
  let vCms : ℚ := vcKmh * (5 / 18)
  let term1p ← pdiv (some (2 * aMax)) (some (vLimitMs - vCms))
  let term2pArg ← pdiv (some (2 * jerkMax)) (some (vLimitMs - vCms))
  let term2p := psqrt F term2pArg
  let term1q ← pdiv (some (2 * aMax)) (some (vCms - vCoastMs))
  let term2qArg ← pdiv (some (2 * jerkMax)) (some (vCms - vCoastMs))
  let term2q := psqrt F term2qArg
  let p := pymin term1p term2p
  let q := pymin term1q term2q
  let tCr ← pdiv (some d0) (some vCms)
  let piOver2p ← pdiv (some npPi) (pmul (some 2) p)
  let tE1 ← pdiv (psub (some d0) (pmul (some vCms) piOver2p)) (some vLimitMs)
  let tE := padd tE1 piOver2p
  let piOver2q ← pdiv (some npPi) (pmul (some 2) q)
  let tL1 ← pdiv (psub (some d0) (pmul (some vCms) piOver2q)) (some vCoastMs)
  let tL := padd tL1 piOver2q
  pure ⟨vCms, p, q, tCr, tE, tL⟩

/-- DMSI.py lines 69–74: the gamma intervals, built from the `-1` sentinel of
`g_e_curr`; the first interval of the two-interval case pairs the absolute
time `t_0_in` with the relative duration `g_e_curr` exactly as the source
does. -/
def gammaDMSI (gECurr t0 gSNext gENext : ℚ) : List (ℚ × ℚ) :=
  if gECurr = -1 then [(gSNext, gENext)] else [(t0, gECurr), (gSNext, gENext)]

/-- DMSI.py `identify_scenario` (lines 141–191).  Every interval is a pair, so
the `len(interval) == 2` guards of the source are identically true and elided.
The thresholds are floats (possibly NaN), compared with Python semantics. -/
def identify_scenario (gamma : List (ℚ × ℚ)) (tCr tE tL : PF) : String × ℤ :=
  if gamma.any (fun se => pfle (some se.1) tCr && pflt tCr (some se.2)) then
    ("Scenario 1", 1)
  else if gamma.any (fun se => pflt (pymax tE (some se.1)) (pymin tCr (some se.2))) then
    ("Scenario 2", 2)
  else if !(gamma.any (fun se => pflt (pymax tCr (some se.1)) (pymin tL (some se.2)))) then
    ("Scenario 3", 3)
  else
    ("Scenario 4", 4)

/-- Observable result of one DMSI.py `Core` cycle. -/
inductive DMSIResult where
  | missingInputs
  | invalidSpeed (d0out : ℚ)
  | classified (label : String) (num : ℤ) (d0out : ℚ)
deriving DecidableEq, Repr

/-- The string written to the `scenario` output line by DMSI.py for each
result. -/
def scenarioText : DMSIResult → String
  | .missingInputs => "Missing Inputs"
  | .invalidSpeed _ => "Invalid Speed"
  | .classified l _ _ => l

/-- DMSI.py `Core` (lines 46–133).  Inputs are `Option` values (`none` models a
missing RTMaps sample); `t0` is the already converted time in seconds
(`round(float(t_0 * 1e-6), 2)` of the raw integer input — the conversion is
injective scaling and is left outside the embedding).  Note the source order:
the gamma construction and ALL rate-parameter divisions (lines 69–102) run
before the speed guard of lines 104–114, and that guard tests `v_c_ms < 0`
and `v_c_ms > v_limit_ms`. -/
def dmsiCore (F : FloatOps) (d0 vc t0 gECurr gSNext gENext : Option ℚ) :
    Except PyError DMSIResult :=
  match d0, vc, t0, gECurr, gSNext, gENext with
  | some d0v, some vcv, some t0v, some gcv, some gsv, some gev =>
    let gamma := gammaDMSI gcv t0v gsv gev
    match computeRatesDMSI F d0v vcv with
    | .error e => .error e
    | .ok r =>
      if r.vCms < 0 then .ok (.invalidSpeed d0v)
      else if vLimitMs < r.vCms then .ok (.invalidSpeed d0v)
      else
        let sc := identify_scenario gamma r.tCr r.tE r.tL
        .ok (.classified sc.1 sc.2 d0v)
  | _, _, _, _, _, _ => .ok .missingInputs

/-- Python `str.strip()`: whitespace removed from both ends (structural
implementation over the character list). -/
def pyStrip (s : String) : String :=
  ⟨((s.data.dropWhile Char.isWhitespace).reverse.dropWhile Char.isWhitespace).reverse⟩

/-- GreenWindowEstimator.py `state_name_to_number` (lines 212–236): the fixed
SAE J2735 phase-name table, `-1.0` for an unrecognized name. -/
def state_name_to_number (state_name : String) : ℚ :=
  let k := pyStrip state_name
  if k = "unavailable" then 0
  else if k = "dark" then 1
  else if k = "stop-Then-Proceed" then 2
  else if k = "stop-And-Remain" then 3
  else if k = "pre-Movement" then 4
  else if k = "permissive-Movement-Allowed" then 5
  else if k = "protected-Movement-Allowed" then 6
  else if k = "permissive-clearance" then 7
  else if k = "protected-clearance" then 8
  else if k = "caution-Conflicting-Traffic" then 9
  else -1

/-- GreenWindowEstimator.py `estimate_green_window_from_countdown`
(lines 169–210).  Returns `(g_s_next, g_e_next, g_e_curr)` in source order;
the triple is `(none, none, none)` (Python `None`s) for an unsupported state.
`g_e_curr` is initialized to the sentinel `-1.0`, which the supported red and
yellow branches leave untouched.  The `t0` parameter is unused by the source:
all returned quantities are durations relative to the call instant. -/
def estimate_green_window_from_countdown (t0 current_state : ℚ) (countdown_value : ℤ)
    (next_green_duration : ℚ) : Option ℚ × Option ℚ × Option ℚ :=
  let time_until_phase_change : ℚ := (countdown_value : ℚ) * (1 / 10)
  if current_state = 2 ∨ current_state = 3 then
    -- RED phase now
    let gs := time_until_phase_change
    (some gs, some (gs + next_green_duration), some (-1))
  else if current_state = 7 ∨ current_state = 8 ∨ current_state = 9 then
    -- YELLOW phase now: 50 s of red after yellow
    let gs := time_until_phase_change + 50
    (some gs, some (gs + next_green_duration), some (-1))
  else if current_state = 4 ∨ current_state = 5 ∨ current_state = 6 then
    -- GREEN phase now: 100 s of yellow and red after the current green
    let gc := time_until_phase_change
    let gs := gc + 100
    (some gs, some (gs + next_green_duration), some gc)
  else
    (none, none, none)

/-- GreenWindowEstimator.py `gamma_function` (lines 144–167). -/
def gamma_function (t0 current_state g_e_curr g_s_next g_e_next : ℚ) : List (ℚ × ℚ) :=
  if current_state = 0 ∨ current_state = 1 then []
  else if current_state = 4 ∨ current_state = 5 ∨ current_state = 6 then
    (if t0 < g_e_curr then [(t0, g_e_curr)] else []) ++ [(g_s_next, g_e_next)]
  else [(g_s_next, g_e_next)]

/-- Mutable per-instance state of GreenWindowEstimator.py.  `hasTick` models
`hasattr(self, "last_cd_tick")`; the three cached estimate fields are `None`
after `__init__`. -/
structure TrackerState where
  hasTick : Bool
  lastCdTick : Option ℤ
  lastTickTime : Option ℚ
  tickIntervals : List ℚ
  gECurr : Option ℚ
  gSNext : Option ℚ
  gENext : Option ℚ
deriving DecidableEq, Repr

/-- GreenWindowEstimator.py `Core` (lines 54–134).  Returns the state after the
call together with the written outputs `(g_e_curr, g_s_next, g_e_next, state)`,
or `none` when the cycle is skipped (missing or mismatched intersection IDs, or
the safety check of lines 108–115 fails).  `t0` is the already converted time
in seconds.  The history/estimate update of lines 83–101 runs only when the
countdown value differs from the last observed one; the appended history is
capped at 20 entries; the average tick defaults to `0.1` for an empty history
and is forced to `0.1` below the `0.08` noise floor; the estimate cache is then
overwritten with the result of `estimate_green_window_from_countdown` (which is
`(None, None, None)` for an unsupported phase).  The `gamma_function` value
computed at lines 118–124 is discarded by the source (its output line is
commented out). -/
def trackerCore (s : TrackerState) (idMatched idSpat : Option ℚ) (t0 : ℚ)
    (stateName : String) (countdown : ℤ) :
    TrackerState × Option (ℚ × ℚ × ℚ × ℚ) :=
  match idMatched, idSpat with
  | some im, some isp =>
    if im ≠ isp then (s, none)
    else
      let code := state_name_to_number stateName
      let s1 : TrackerState :=
        if s.hasTick then s else ⟨true, none, some t0, [], s.gECurr, s.gSNext, s.gENext⟩
      let s2 : TrackerState :=
        if s1.lastCdTick ≠ some countdown then
          let ticks :=
            match s1.lastTickTime with
            | some lt =>
              let l := s1.tickIntervals ++ [t0 - lt]
              if 20 < l.length then l.drop 1 else l
            | none => s1.tickIntervals
          let avg0 : ℚ := if ticks = [] then 1 / 10 else ticks.sum / (ticks.length : ℚ)
          let avg : ℚ := if avg0 < 2 / 25 then 1 / 10 else avg0
          let est := estimate_green_window_from_countdown t0 code countdown (500 * avg)
          ⟨true, some countdown, some t0, ticks, est.2.2, est.1, est.2.1⟩
        else s1
      match s2.gECurr, s2.gSNext, s2.gENext with
      | some gc, some gs, some ge =>
        let _gamma := gamma_function t0 code gc gs ge
        (s2, some (gc, gs, ge, code))
      | _, _, _ => (s2, none)
  | _, _ => (s, none)

/-- DMTG.py lines 250–265: the same conversion, rate-parameter, and threshold
computation as DMSI.py, recomputed by `compute_velocity_profile`, embedded
separately from its own source lines. -/
def computeRatesDMTG (F : FloatOps) (d0 vcKmh : ℚ) : Except PyError Rates := do
  let vCms : ℚ := vcKmh * (5 / 18)
  let term1p ← pdiv (some (2 * aMax)) (some (vLimitMs - vCms))
  let term2pArg ← pdiv (some (2 * jerkMax)) (some (vLimitMs - vCms))
  let term2p := psqrt F term2pArg
  let term1q ← pdiv (some (2 * aMax)) (some (vCms - vCoastMs))
  let term2qArg ← pdiv (some (2 * jerkMax)) (some (vCms - vCoastMs))
  let term2q := psqrt F term2qArg
  let p := pymin term1p term2p
  let q := pymin term1q term2q
  let tCr ← pdiv (some d0) (some vCms)
  let piOver2p ← pdiv (some npPi) (pmul (some 2) p)
  let tE1 ← pdiv (psub (some d0) (pmul (some vCms) piOver2p)) (some vLimitMs)
  let tE := padd tE1 piOver2p
  let piOver2q ← pdiv (some npPi) (pmul (some 2) q)
  let tL1 ← pdiv (psub (some d0) (pmul (some vCms) piOver2q)) (some vCoastMs)
  let tL := padd tL1 piOver2q
  pure ⟨vCms, p, q, tCr, tE, tL⟩

/-- DMTG.py lines 268–273: the gamma construction of `compute_velocity_profile`
(textually the same as DMSI.py lines 69–74, with `t_0` for the current-green
start). -/
def gammaDMTG (gECurr t0 gSNext gENext : ℚ) : List (ℚ × ℚ) :=
  if gECurr = -1 then [(gSNext, gENext)] else [(t0, gECurr), (gSNext, gENext)]

/-- DMTG.py `f` (lines 106–118): the five-phase Scenario 2 shaping function.
Python chained comparisons short-circuit, so `np.pi / (2*m)` is evaluated only
once `0 <= t` holds. -/
def fShape (F : FloatOps) (t : ℚ) (vc vh vd m n t1 : PF) (d0 : ℚ) (t2 t3 : PF) :
    Except PyError PF := do
  if 0 ≤ t then
    let b1 ← pdiv (some npPi) (pmul (some 2) m)
    if pfle (some t) b1 then
      return psub vh (pmul vd (pcos F (pmul m (some t))))
  if pfle (some t) t1 then
    let piOverN ← pdiv (some npPi) n
    let mOverN ← pdiv m n
    return psub vh (pmul (pmul mOverN vd) (pcos F (pmul n (psub (padd (some t) piOverN) t1))))
  let dOverVh ← pdiv (some d0) vh
  if pfle (some t) dOverVh then
    let mOverN ← pdiv m n
    return padd vh (pmul mOverN vd)
  if pfle (some t) t2 then
    let mOverN ← pdiv m n
    let c ← pdiv (pmul (some 3) (some npPi)) (pmul (some 2) n)
    return psub vh (pmul (pmul mOverN vd) (pcos F (pmul n (psub (padd (some t) c) t2))))
  if pfle (some t) t3 then
    return psub vh (pmul vd (pcos F (pmul m (psub (some t) t3))))
  return vc

/-- DMTG.py `h` (lines 169–181): the Scenario 4 shaping function, a verbatim
duplicate of `f` in the source, embedded separately. -/
def hShape (F : FloatOps) (t : ℚ) (vc vh vd m n t1 : PF) (d0 : ℚ) (t2 t3 : PF) :
    Except PyError PF := do
  if 0 ≤ t then
    let b1 ← pdiv (some npPi) (pmul (some 2) m)
    if pfle (some t) b1 then
      return psub vh (pmul vd (pcos F (pmul m (some t))))
  if pfle (some t) t1 then
    let piOverN ← pdiv (some npPi) n
    let mOverN ← pdiv m n
    return psub vh (pmul (pmul mOverN vd) (pcos F (pmul n (psub (padd (some t) piOverN) t1))))
  let dOverVh ← pdiv (some d0) vh
  if pfle (some t) dOverVh then
    let mOverN ← pdiv m n
    return padd vh (pmul mOverN vd)
  if pfle (some t) t2 then
    let mOverN ← pdiv m n
    let c ← pdiv (pmul (some 3) (some npPi)) (pmul (some 2) n)
    return psub vh (pmul (pmul mOverN vd) (pcos F (pmul n (psub (padd (some t) c) t2))))
  if pfle (some t) t3 then
    return psub vh (pmul vd (pcos F (pmul m (psub (some t) t3))))
  return vc

/-- DMTG.py `g` (lines 151–166): the Scenario 3 stop-and-wait profile.  All
arguments are plainly finite at the single call site, so this branch is
embedded over ℚ. -/
def gShape (F : FloatOps) (t vcms : ℚ) (tArr gNextS : ℚ) (t5 m : ℚ) :
    Except PyError ℚ := do
  if 0 ≤ t ∧ t < tArr then
    let v := vcms / 2 + (vcms / 2) * F.cos (m * t)
    let piOverM ← qdiv npPi m
    -- beyond pi/m the value is forced to exactly 0
    return (if piOverM < t then 0 else v)
  else if tArr ≤ t ∧ t < gNextS then
    return 0
  else if gNextS ≤ t ∧ t < t5 then
    return (vcms / 2 + (vcms / 2) * F.cos (m * (t - t5)))
  else
    return vcms

/-- DMTG.py `calculate_scen2_t_arr` (lines 120–132): the least overlap start
`max(t_e, s)` over the intervals with `max(t_e, s) < min(t_cr, e)`, or Python
`None` if no interval qualifies. -/
def calculate_scen2_t_arr (tE tCr : PF) (gamma : List (ℚ × ℚ)) : Option PF :=
  pyminList (gamma.filterMap fun se =>
    let ovS := pymax tE (some se.1)
    let ovE := pymin tCr (some se.2)
    if pflt ovS ovE then some ovS else none)

/-- DMTG.py `calculate_scen4_t_arr` (lines 134–148): as for Scenario 2 but with
overlap starts `max(t_cr, s)` and ends `min(t_l, e)`. -/
def calculate_scen4_t_arr (tL tCr : PF) (gamma : List (ℚ × ℚ)) : Option PF :=
  pyminList (gamma.filterMap fun se =>
    let ovS := pymax tCr (some se.1)
    let ovE := pymin tL (some se.2)
    if pflt ovS ovE then some ovS else none)

/-- DMTG.py `calculate_n_scen2and4` (lines 183–202).  With `|v_d| ≤ 1e-6` the
candidate list stays empty and Python's `min([])` raises `ValueError`. -/
def calculate_n_scen2and4 (F : FloatOps) (a_max d_max jerk_max : ℚ) (vd vh : PF)
    (d0 : ℚ) : Except PyError PF := do
  let cands ←
    if pflt (some ((1 : ℚ) / 1000000)) (pabs vd) then do
      let nAcc ← pdiv (some a_max) (pabs vd)
      let nDec ← pdiv (some d_max) (pabs vd)
      let nJerkArg ← pdiv (some jerk_max) (pabs vd)
      pure [nAcc, nDec, psqrt F nJerkArg]
    else pure ([] : List PF)
  let nLower ←
    if pflt (some ((1 : ℚ) / 1000000)) (pabs vh) && decide ((1 : ℚ) / 1000000 < |d0|) then do
      let r ← pdiv vh (some d0)
      pure (pmul (some (npPi / 2 - 1)) r)
    else pure (some ((1 : ℚ) / 100))
  match pyminList cands with
  | none => .error .valueError
  | some mn => pure (pymax mn nLower)

/-- DMTG.py `calculate_m_scen2and4` (lines 206–229), with the two documented
clamps: a negative discriminant is replaced by `sqrt_term = 0`, and a
denominator smaller than `1e-6` in magnitude yields `m = 1e6`. -/
def calculate_m_scen2and4 (F : FloatOps) (n : PF) (d0 : ℚ) (vh : PF) :
    Except PyError PF := do
  let piO2 : ℚ := npPi / 2
  let num1 := pmul (some (-piO2)) n
  let dOverVh ← pdiv (some d0) vh
  let inside := psub (pmul (pmul (some piO2) n) (pmul (some piO2) n))
                     (pmul (pmul (some 4) (pmul n n)) (psub (some (piO2 - 1)) (pmul dOverVh n)))
  let sqrtTerm := if pflt inside (some 0) then some 0 else psqrt F inside
  let numerator := psub num1 sqrtTerm
  let denominator := pmul (some 2) (psub (some (piO2 - 1)) (pmul dOverVh n))
  if pflt (pabs denominator) (some ((1 : ℚ) / 1000000)) then
    pure (some 1000000)
  else
    pdiv numerator denominator

/-- DMTG.py `calculate_m_scen3` (lines 232–234): `m = v_h / d_0 * np.pi`. -/
def calculate_m_scen3 (d0 vh : ℚ) : Except PyError ℚ := do
  let r ← qdiv vh d0
  pure (r * npPi)

/-- DMTG.py `calculate_n_scen3` (lines 236–238): `n = v_h / d_0 * np.pi`. -/
def calculate_n_scen3 (d0 vh : ℚ) : Except PyError ℚ := do
  let r ← qdiv vh d0
  pure (r * npPi)

/-- Ceiling of a rational, via `Rat.floor`. -/
def ratCeil (q : ℚ) : ℤ := -((-q).floor)

/-- Exact-arithmetic semantics of `np.arange(start, stop, step)` for a positive
step: the samples `start + k*step` for `0 ≤ k < ⌈(stop−start)/step⌉`. -/
def arange (start stop step : ℚ) : List ℚ :=
  (List.range (max 0 (ratCeil ((stop - start) / step))).toNat).map
    (fun k => start + (k : ℚ) * step)

/-- `np.arange` with a float stop: a NaN stop cannot be converted to a length
and raises. -/
def parange (start : ℚ) (stop : PF) (step : ℚ) : Except PyError (List ℚ) :=
  match stop with
  | none => .error .valueError
  | some e => .ok (arange start e step)

/-- Outcome of the scenario dispatch of `compute_velocity_profile`
(lines 275–367): either some branch executed a bare `return` (Python `None`),
or control fell through with the accumulated profile and the `t_end` local,
`none` when no branch assigned it. -/
inductive SynthResult where
  | earlyNone
  | done (profile : List (ℚ × PF)) (tEnd : Option PF)
deriving DecidableEq

/-- DMTG.py lines 275–367: the scenario dispatch of `compute_velocity_profile`.
An unrecognized scenario string takes no branch, leaving the sample list empty
and `t_end` unassigned. -/
def scenarioBranches (F : FloatOps) (dt t0 d0 vcms : ℚ) (gamma : List (ℚ × ℚ))
    (tCr tE tL : PF) (gsNext : ℚ) (scenario : String) : Except PyError SynthResult := do
  if scenario = "Scenario 1" then
    let tEnd : ℚ := t0 + 30
    let ts ← parange t0 (some (tEnd + dt)) dt
    let profile := ts.map (fun t =>
      let v := vcms * (18 / 5)
      let v := if vLimitKmh ≤ v then vLimitKmh else v
      (t, (some v : PF)))
    pure (.done profile (some (some tEnd)))
  else if scenario = "Scenario 2" ∨ scenario = "Scenario 4" then
    let tArrOpt := if scenario = "Scenario 2" then calculate_scen2_t_arr tE tCr gamma
                   else calculate_scen4_t_arr tL tCr gamma
    match tArrOpt with
    | none => pure .earlyNone
    | some tArr => do
      let vh ← pdiv (some d0) tArr
      let vd := psub vh (some vcms)
      let n ← calculate_n_scen2and4 F aMax dMax jerkMax vd vh d0
      let m ← calculate_m_scen2and4 F n d0 vh
      let piO2m ← pdiv (some npPi) (pmul (some 2) m)
      let piO2n ← pdiv (some npPi) (pmul (some 2) n)
      let t1 := padd piO2m piO2n
      let dOverVh ← pdiv (some d0) vh
      let t2 := padd dOverVh piO2n
      let t3 := padd (padd dOverVh piO2m) piO2n
      let tEnd := padd t3 (some 1)
      let ts ← parange t0 (padd tEnd (some dt)) dt
      let profile ← ts.mapM (fun t => do
        let v ← if scenario = "Scenario 2" then
                  fShape F (t - t0) (some vcms) vh vd m n t1 d0 t2 t3
                else
                  hShape F (t - t0) (some vcms) vh vd m n t1 d0 t2 t3
        pure (t, pmul v (some (18 / 5))))
      pure (.done profile (some tEnd))
  else if scenario = "Scenario 3" then
    if vcms ≤ vCoastMs then
      pure .earlyNone
    else
      -- the source's `if g_s_next is None` guard: `Core` validated g_s_next,
      -- so it is identically false here
      let vh : ℚ := vcms / 2
      let tArr ← qdiv d0 vh
      let n ← calculate_n_scen3 d0 vh
      let m ← calculate_m_scen3 d0 vh
      let t4 ← do
        let r ← qdiv npPi (2 * n)
        pure (gsNext + r)
      let t5 ← do
        let r ← qdiv npPi (m * 2)
        pure (t4 + r)
      let tEnd : ℚ := t5 + 1
      let ts ← parange t0 (some (tEnd + dt)) dt
      let profile ← ts.mapM (fun t => do
        let v ← gShape F (t - t0) vcms tArr gsNext t5 m
        let v := v * (18 / 5)
        let v := if vLimitKmh ≤ v then vLimitKmh else v
        pure (t, (some v : PF)))
      pure (.done profile (some (some tEnd)))
  else
    pure (.done [] none)

/-- DMTG.py `compute_velocity_profile` (lines 240–370).  Returns Python `None`
(`.ok none`) on the bare-return paths, otherwise the triple
`(profile, t_0, t_0 + t_end)`; referencing the never-assigned `t_end` local
after an unrecognized scenario raises `UnboundLocalError`.  The
`save_profile_to_file` diagnostic write of line 369 touches no computed value
and is not modelled. -/
def compute_velocity_profile (F : FloatOps) (dt t0 d0 vc gECurr gSNext gENext : ℚ)
    (scenario : String) : Except PyError (Option (List (ℚ × PF) × ℚ × PF)) := do
  let r ← computeRatesDMTG F d0 vc
  let gamma := gammaDMTG gECurr t0 gSNext gENext
  let br ← scenarioBranches F dt t0 d0 r.vCms gamma r.tCr r.tE r.tL gSNext scenario
  match br with
  | .earlyNone => pure none
  | .done _ none => .error .unboundLocalError
  | .done profile (some tEnd) => pure (some (profile, t0, padd (some t0) tEnd))

/-- Python `int()` truncation toward zero on a float. -/
def pyint (q : ℚ) : ℤ := if 0 ≤ q then q.floor else -((-q).floor)

/-- Python list indexing: a negative index counts from the end; out of range
raises `IndexError`. -/
def pyGet (l : List (ℚ × PF)) (i : ℤ) : Except PyError (ℚ × PF) :=
  let j := if i < 0 then i + l.length else i
  if h : 0 ≤ j ∧ j.toNat < l.length then .ok (l.get ⟨j.toNat, h.2⟩)
  else .error .indexError

/-- Mutable per-instance state of DMTG.py, as set by `Birth` (lines 46–55):
`precomputed_velocity_profile`, `profile_start_time`, `profile_end_time` and
`last_scenario` all start as Python `None`. -/
structure PlannerState where
  profile : Option (List (ℚ × PF))
  startT : Option ℚ
  endT : Option PF
  lastScenario : Option String
deriving DecidableEq

/-- The `Birth` state of DMTG.py. -/
def plannerBirth : PlannerState := ⟨none, none, none, none⟩

/-- DMTG.py lines 86–94: the profile lookup.  `t_0` and the cached start are
finite floats; the cached end is the float `t_0 + t_end` (possibly NaN). -/
def plannerLookup (prof : List (ℚ × PF)) (st : ℚ) (en : PF) (t0 dt : ℚ) :
    Except PyError PF := do
  if t0 ≤ st then
    let e ← pyGet prof 0
    pure e.2
  else if pfle en (some t0) then
    let e ← pyGet prof (-1)
    pure e.2
  else
    let r ← qdiv (t0 - st) dt
    let idx := min (pyint r) ((prof.length : ℤ) - 1)
    let e ← pyGet prof idx
    pure e.2

/-- DMTG.py `Core` (lines 57–97).  Returns the state after the call and either
the written outputs `(v_t_kmh, v_t_mph)` (`.ok (some _)`), a skipped cycle on
missing inputs (`.ok none`), or a raised exception (`.error _`).  Notes traced
from the source: the input `v_c` is absent from the missing-input validation of
line 72 and is taken as present; the two reset assignments under the
commented-out `if scenario != self.last_scenario:` of line 77 are indented into
the missing-input block AFTER its `return`, hence unreachable, and are
accordingly not part of the embedding; `compute_velocity_profile` is invoked
only while the cached profile is `None`, and tuple-unpacking its `None` return
raises `TypeError` before any attribute is assigned. -/
def plannerCore (F : FloatOps) (dt : ℚ) (s : PlannerState) (scenario : Option String)
    (d0 : Option ℚ) (vc : ℚ) (t0 gECurr gSNext gENext : Option ℚ) :
    PlannerState × Except PyError (Option (PF × PF)) :=
  match scenario, d0, t0, gECurr, gSNext, gENext with
  | some scen, some d0v, some t0v, some gcv, some gsv, some gev =>
    match s.profile with
    | some prof =>
      -- cached profile: straight to the lookup with the cached bounds
      match s.startT, s.endT with
      | some st, some en =>
        (match plannerLookup prof st en t0v dt with
         | .ok v => (s, .ok (some (v, pdivc v (1609 / 1000))))
         | .error e => (s, .error e))
      | _, _ => (s, .error .typeError)
    | none =>
      match compute_velocity_profile F dt t0v d0v vc gcv gsv gev scen with
      | .error e => (s, .error e)
      | .ok none => (s, .error .typeError)
      | .ok (some (prof, st, en)) =>
        let t : PlannerState := ⟨some prof, some st, some en, s.lastScenario⟩
        (match plannerLookup prof st en t0v dt with
         | .ok v => (t, .ok (some (v, pdivc v (1609 / 1000))))
         | .error e => (t, .error e))
  | _, _, _, _, _, _ => (s, .ok none)

/-- Python `max` agrees with the mathematical `max` on non-NaN floats. -/
theorem pymax_some (x y : ℚ) : pymax (some x) (some y) = some (max x y) := by
  simp only [pymax, pflt]
  by_cases h : x < y
  · simp [h, max_eq_right h.le]
  · simp [h, max_eq_left (not_lt.1 h)]

/-- Python `min` agrees with the mathematical `min` on non-NaN floats. -/
theorem pymin_some (x y : ℚ) : pymin (some x) (some y) = some (min x y) := by
  simp only [pymin, pflt]
  by_cases h : y < x
  · simp [h, min_eq_right h.le]
  · simp [h, min_eq_left (not_lt.1 h)]

/-- Claim C5: for every gamma interval set and thresholds `t_cr, t_e, t_l`, the
classifier `identify_scenario` is total and returns exactly one of the four
scenarios by first match in priority order: Scenario 1 if some interval
`[s,e)` has `s ≤ t_cr < e`; else Scenario 2 if some interval has
`max(t_e,s) < min(t_cr,e)`; else Scenario 3 if no interval has
`max(t_cr,s) < min(t_l,e)`; else Scenario 4. -/
theorem identify_scenario_first_match (gamma : List (ℚ × ℚ)) (tCr tE tL : ℚ) :
    identify_scenario gamma (some tCr) (some tE) (some tL) =
      if ∃ se ∈ gamma, se.1 ≤ tCr ∧ tCr < se.2 then ("Scenario 1", 1)
      else if ∃ se ∈ gamma, max tE se.1 < min tCr se.2 then ("Scenario 2", 2)
      else if ¬ ∃ se ∈ gamma, max tCr se.1 < min tL se.2 then ("Scenario 3", 3)
      else ("Scenario 4", 4) := by
  have e1 : (gamma.any fun se => pfle (some se.1) (some tCr) && pflt (some tCr) (some se.2))
      = true ↔ ∃ se ∈ gamma, se.1 ≤ tCr ∧ tCr < se.2 := by
    simp [List.any_eq_true, pfle, pflt]
  have e2 : (gamma.any fun se =>
        pflt (pymax (some tE) (some se.1)) (pymin (some tCr) (some se.2)))
      = true ↔ ∃ se ∈ gamma, max tE se.1 < min tCr se.2 := by
    simp [List.any_eq_true, pymax_some, pymin_some, pflt]
  have e3 : (gamma.any fun se =>
        pflt (pymax (some tCr) (some se.1)) (pymin (some tL) (some se.2)))
      = true ↔ ∃ se ∈ gamma, max tCr se.1 < min tL se.2 := by
    simp [List.any_eq_true, pymax_some, pymin_some, pflt]
  simp only [identify_scenario]
  by_cases h1 : ∃ se ∈ gamma, se.1 ≤ tCr ∧ tCr < se.2
  · rw [if_pos (e1.mpr h1), if_pos h1]
  · rw [if_neg (fun c => h1 (e1.mp c)), if_neg h1]
    by_cases h2 : ∃ se ∈ gamma, max tE se.1 < min tCr se.2
    · rw [if_pos (e2.mpr h2), if_pos h2]
    · rw [if_neg (fun c => h2 (e2.mp c)), if_neg h2]
      by_cases h3 : ∃ se ∈ gamma, max tCr se.1 < min tL se.2
      · have hb := e3.mpr h3
        rw [if_neg (by simp [hb]), if_neg (not_not_intro h3)]
      · have hb : (gamma.any fun se =>
            pflt (pymax (some tCr) (some se.1)) (pymin (some tL) (some se.2))) = false :=
          Bool.eq_false_iff.mpr (fun c => h3 (e3.mp c))
        rw [if_pos (by simp [hb]), if_pos h3]

/-- Claim C8: on every common input, the planner's recomputation of
`p, q, t_cr, t_e, t_l` (DMTG.py lines 250–265) and of the gamma intervals
(lines 268–273) is extensionally equal to the classifier's computation of the
same quantities (DMSI.py lines 88–102 and 69–74), for every choice of the
abstracted float primitives. -/
theorem planner_classifier_recompute_agree (F : FloatOps) (d0 vc gc t0 gs ge : ℚ) :
    computeRatesDMSI F d0 vc = computeRatesDMTG F d0 vc ∧
    gammaDMSI gc t0 gs ge = gammaDMTG gc t0 gs ge :=
  ⟨rfl, rfl⟩

/-- Claim C1 (the code-level behavior at the failing inputs): with `v_c_ms = 0`
(`v_c_in = 0`) the classifier raises `ZeroDivisionError` at the `t_cr`
division, and with `v_c_ms = v_limit_ms` (`v_c_in = 56.33`) it raises at the
`term1p` division — in both cases before the speed guard can run, and in
neither case is `InvalidSpeed` produced; this holds for every implementation
of the abstracted float primitives. -/
theorem dmsi_guard_after_divisions (F : FloatOps) :
    dmsiCore F (some 100) (some 0) (some 0) (some (-1)) (some 10) (some 20) =
      .error .zeroDivisionError ∧
    dmsiCore F (some 100) (some (5633 / 100)) (some 0) (some (-1)) (some 10) (some 20) =
      .error .zeroDivisionError :=
  ⟨by with_unfolding_all rfl, by with_unfolding_all rfl⟩

/-- Claim C4: the planner state machine moves from Empty to Ready exactly once.
Part one: from any Ready state (a cached profile is present), one `Core` cycle
returns the state completely unchanged — no input combination, scenario change
included, ever clears or recomputes the cached profile, because the source's
scenario-change reset lies unreachably after a `return`.  Part two: from the
Empty state, a successful `compute_velocity_profile` caches exactly the
returned profile and bounds. -/
theorem planner_ready_persists (F : FloatOps) (dt : ℚ) (s : PlannerState)
    (scenario : Option String) (d0 : Option ℚ) (vc : ℚ) (t0 gc gs ge : Option ℚ) :
    (∀ P, s.profile = some P → (plannerCore F dt s scenario d0 vc t0 gc gs ge).1 = s) ∧
    (∀ sc d0v t0v gcv gsv gev prof st en,
      scenario = some sc → d0 = some d0v → t0 = some t0v → gc = some gcv →
      gs = some gsv → ge = some gev → s.profile = none →
      compute_velocity_profile F dt t0v d0v vc gcv gsv gev sc = .ok (some (prof, st, en)) →
      (plannerCore F dt s scenario d0 vc t0 gc gs ge).1 =
        ⟨some prof, some st, some en, s.lastScenario⟩) := by
  constructor
  · intro P hP
    cases scenario <;> cases d0 <;> cases t0 <;> cases gc <;> cases gs <;> cases ge <;>
      simp only [plannerCore, hP] <;> (try rfl) <;>
      (cases s.startT <;> cases s.endT <;> simp only [] <;> (try rfl)) <;>
      (rename_i st en; cases plannerLookup P st en _ dt <;> rfl)
  · intro sc d0v t0v gcv gsv gev prof st en h1 h2 h3 h4 h5 h6 hP hC
    subst h1; subst h2; subst h3; subst h4; subst h5; subst h6
    simp only [plannerCore, hP, hC]
    cases plannerLookup prof st en t0v dt <;> rfl

/-- Witness for `planner_ready_persists` at a concrete Ready state and input:
the state is returned unchanged. -/
theorem planner_ready_persists_witness :
    (plannerCore idOps (1 / 10) ⟨some [(0, some 30)], some 0, some (some 10), none⟩
        (some ("Scenario 2")) (some 100) 36 (some 0) (some (-1)) (some 10) (some 20)).1 =
      ⟨some [(0, some 30)], some 0, some (some 10), none⟩ :=
  (planner_ready_persists idOps (1 / 10) ⟨some [(0, some 30)], some 0, some (some 10), none⟩
      (some ("Scenario 2")) (some 100) 36 (some 0) (some (-1)) (some 10) (some 20)).1
    [(0, some 30)] rfl

/-- Counterexample to claim C2 as stated: a concrete Scenario 2 cycle whose
single gamma interval lies beyond the cruise arrival time has an empty
feasible-arrival set, and the failure surfaces across the component boundary
as an unstructured `TypeError` (the caller tuple-unpacks the `None` returned
by `compute_velocity_profile`), not as a structured failure. -/
theorem planner_scen2_unstructured_exception :
    plannerCore idOps (1 / 10) plannerBirth (some ("Scenario 2")) (some 100) 36 (some 0)
        (some (-1)) (some 1000000) (some 2000000) =
      (plannerBirth, .error .typeError) := by
  with_unfolding_all rfl

/-- Claim C2 as amended: for every Scenario 2 (or Scenario 4) compute cycle
whose feasible-arrival set is empty, the planner aborts profile computation for
that cycle and retains its prior cached state unchanged (so a later cycle can
retry), but the failure surfaces as an unstructured `TypeError` across the
component boundary — raised when `Core` tuple-unpacks the `None` that
`compute_velocity_profile` returns — rather than as a structured failure. -/
theorem planner_no_feasible_arrival (F : FloatOps) (dt : ℚ) (s : PlannerState)
    (scen : String) (d0 vc t0 gc gs ge : ℚ) (r : Rates)
    (hprof : s.profile = none)
    (hr : computeRatesDMTG F d0 vc = .ok r)
    (hempty : (scen = "Scenario 2" ∧
                 calculate_scen2_t_arr r.tE r.tCr (gammaDMTG gc t0 gs ge) = none) ∨
              (scen = "Scenario 4" ∧
                 calculate_scen4_t_arr r.tL r.tCr (gammaDMTG gc t0 gs ge) = none)) :
    plannerCore F dt s (some scen) (some d0) vc (some t0) (some gc) (some gs) (some ge) =
      (s, .error .typeError) := by
  have hbr : scenarioBranches F dt t0 d0 r.vCms (gammaDMTG gc t0 gs ge)
      r.tCr r.tE r.tL gs scen = .ok .earlyNone := by
    rcases hempty with ⟨hs, he⟩ | ⟨hs, he⟩ <;> subst hs <;>
      simp [scenarioBranches, he] <;> rfl
  have hC : compute_velocity_profile F dt t0 d0 vc gc gs ge scen = .ok none := by
    simp only [compute_velocity_profile, hr, bind, Except.bind, hbr]
    rfl
  simp only [plannerCore, hprof, hC]

/-- Witness for `planner_no_feasible_arrival`: a concrete Scenario 4 cycle with
an empty feasible-arrival set aborts with the `TypeError` and leaves the Empty
state unchanged. -/
theorem planner_no_feasible_arrival_witness :
    plannerCore idOps (1 / 10) plannerBirth (some ("Scenario 4")) (some 100) 36 (some 0)
        (some (-1)) (some 1000000) (some 1000001) =
      (plannerBirth, .error .typeError) :=
  planner_no_feasible_arrival idOps (1 / 10) plannerBirth ("Scenario 4") 100 36 0 (-1)
    1000000 1000001 _ rfl (by with_unfolding_all rfl)
    (Or.inr ⟨rfl, by with_unfolding_all rfl⟩)

/-- Claim C10: for every scenario label outside the four recognized strings,
`compute_velocity_profile` takes no synthesis branch — the dispatch falls
through with an empty sample list and the `t_end` local never assigned — so
its final return raises `UnboundLocalError` and the planner cycle can produce
no velocity output (the cached state is also left unchanged).  The last two
conjuncts show the error branch is reachable from the classifier's own
outputs: on an invalid-speed input the classifier itself emits the label
"Invalid Speed" on its scenario line, which is outside the four recognized
strings (the witness instantiates this theorem at exactly that label). -/
theorem planner_unknown_scenario_no_output (F : FloatOps) (dt : ℚ) (s : PlannerState)
    (scen : String) (d0 vc t0 gc gs ge : ℚ) (r : Rates)
    (h1 : scen ≠ "Scenario 1") (h2 : scen ≠ "Scenario 2") (h3 : scen ≠ "Scenario 3")
    (h4 : scen ≠ "Scenario 4")
    (hr : computeRatesDMTG F d0 vc = .ok r)
    (hprof : s.profile = none) :
    scenarioBranches F dt t0 d0 r.vCms (gammaDMTG gc t0 gs ge) r.tCr r.tE r.tL gs scen =
      .ok (.done [] none) ∧
    compute_velocity_profile F dt t0 d0 vc gc gs ge scen = .error .unboundLocalError ∧
    plannerCore F dt s (some scen) (some d0) vc (some t0) (some gc) (some gs) (some ge) =
      (s, .error .unboundLocalError) ∧
    dmsiCore idOps (some 100) (some (-10)) (some 0) (some (-1)) (some 10) (some 20) =
      .ok (.invalidSpeed 100) ∧
    scenarioText (.invalidSpeed 100) = "Invalid Speed" := by
  have hbr : scenarioBranches F dt t0 d0 r.vCms (gammaDMTG gc t0 gs ge)
      r.tCr r.tE r.tL gs scen = .ok (.done [] none) := by
    simp [scenarioBranches, h1, h2, h3, h4]
    rfl
  have hC : compute_velocity_profile F dt t0 d0 vc gc gs ge scen =
      .error .unboundLocalError := by
    simp only [compute_velocity_profile, hr, bind, Except.bind, hbr]
  refine ⟨hbr, hC, ?_, by with_unfolding_all rfl, rfl⟩
  simp only [plannerCore, hprof, hC]

/-- Witness for `planner_unknown_scenario_no_output` at the classifier-emitted
label "Invalid Speed": the dispatch falls through and the planner cycle raises
`UnboundLocalError` instead of producing a velocity output. -/
theorem planner_unknown_scenario_no_output_witness :
    ("Invalid Speed" : String) ≠ "Scenario 1" ∧
    compute_velocity_profile idOps (1 / 10) 0 100 36 (-1) 1000000 2000000 ("Invalid Speed") =
      .error .unboundLocalError ∧
    plannerCore idOps (1 / 10) plannerBirth (some ("Invalid Speed")) (some 100) 36 (some 0)
        (some (-1)) (some 1000000) (some 2000000) =
      (plannerBirth, .error .unboundLocalError) :=
  have h := planner_unknown_scenario_no_output idOps (1 / 10) plannerBirth ("Invalid Speed")
    100 36 0 (-1) 1000000 2000000 _ (by decide) (by decide) (by decide) (by decide)
    (by with_unfolding_all rfl) rfl
  ⟨by decide, h.2.1, h.2.2.1⟩

/-- Claim C7: on every classify cycle that reaches classification, the gamma
interval list the classifier feeds to `identify_scenario` is literally
`[(g_s_next, g_e_next)]` when `g_e_curr` is the `-1` sentinel, and
`[(t_0, g_e_curr), (g_s_next, g_e_next)]` otherwise — the absolute time `t_0`
is paired with the relative duration `g_e_curr` as-is, never corrected. -/
theorem dmsi_gamma_literal (F : FloatOps) (d0 vc t0 gc gs ge : ℚ) (r : Rates)
    (hr : computeRatesDMSI F d0 vc = .ok r)
    (hneg : ¬ r.vCms < 0) (hover : ¬ vLimitMs < r.vCms) :
    dmsiCore F (some d0) (some vc) (some t0) (some gc) (some gs) (some ge) =
      .ok (.classified
        (identify_scenario (if gc = -1 then [(gs, ge)] else [(t0, gc), (gs, ge)])
          r.tCr r.tE r.tL).1
        (identify_scenario (if gc = -1 then [(gs, ge)] else [(t0, gc), (gs, ge)])
          r.tCr r.tE r.tL).2
        d0) := by
  simp only [dmsiCore, gammaDMSI, hr, if_neg hneg, if_neg hover]

/-- Witness for `dmsi_gamma_literal` at a concrete classify cycle with a
present `g_e_curr = 5` (so the two-interval gamma, whose first component mixes
`t_0 = 0` with the duration `5`, is used; the cruise arrival time falls inside
the second interval and Scenario 1 is reported). -/
theorem dmsi_gamma_literal_witness :
    dmsiCore idOps (some 100) (some 36) (some 0) (some 5) (some 10) (some 20) =
      .ok (.classified ("Scenario 1") 1 100) :=
  (dmsi_gamma_literal idOps 100 36 0 5 10 20 _ (by with_unfolding_all rfl)
      (by with_unfolding_all decide) (by with_unfolding_all decide)).trans
    (by with_unfolding_all rfl)

/-- Helper: the tracker state produced by a `Core` cycle with matching IDs, an
already initialized tick attribute, and a changed countdown value — the
history is extended (capped at 20), the last tick bookkeeping moves to `t0`,
and the estimate cache is overwritten by
`estimate_green_window_from_countdown`. -/
theorem trackerCore_update (s : TrackerState) (m t0 : ℚ) (name : String) (cd : ℤ) (lt : ℚ)
    (hInit : s.hasTick = true) (hlt : s.lastTickTime = some lt)
    (hch : s.lastCdTick ≠ some cd) :
    (trackerCore s (some m) (some m) t0 name cd).1 =
      (let ticks :=
        (let l := s.tickIntervals ++ [t0 - lt]; if 20 < l.length then l.drop 1 else l)
       let avg0 : ℚ := if ticks = [] then 1 / 10 else ticks.sum / (ticks.length : ℚ)
       let avg : ℚ := if avg0 < 2 / 25 then 1 / 10 else avg0
       let est := estimate_green_window_from_countdown t0 (state_name_to_number name) cd
         (500 * avg)
       (⟨true, some cd, some t0, ticks, est.2.2, est.1, est.2.1⟩ : TrackerState)) := by
  simp only [trackerCore]
  rw [if_neg (show ¬ m ≠ m from fun h => h rfl)]
  simp only [hInit, if_true, hlt, if_pos hch]
  split <;> rfl

/-- Claim C6: on every ingest with matching IDs, a changed countdown and a
recognized phase, the new estimate follows the derivation table exactly, with
`time_until_change = countdown · 0.1` and
`next_green_duration = 500 · avg_tick`: red gives `g_e_curr` the absent
sentinel `-1`, `g_s_next = time_until_change`,
`g_e_next = g_s_next + next_green_duration`; yellow gives the absent sentinel,
`g_s_next = time_until_change + 50`, `g_e_next = g_s_next +
next_green_duration`; green gives `g_e_curr = time_until_change`,
`g_s_next = g_e_curr + 100`, `g_e_next = g_s_next + next_green_duration`. -/
theorem tracker_estimate_table (s : TrackerState) (m t0 : ℚ) (name : String) (cd : ℤ)
    (lt : ℚ) (hInit : s.hasTick = true) (hlt : s.lastTickTime = some lt)
    (hch : s.lastCdTick ≠ some cd) :
    (let ticks :=
      (let l := s.tickIntervals ++ [t0 - lt]; if 20 < l.length then l.drop 1 else l)
     let avg0 : ℚ := if ticks = [] then 1 / 10 else ticks.sum / (ticks.length : ℚ)
     let avg : ℚ := if avg0 < 2 / 25 then 1 / 10 else avg0
     let ngd : ℚ := 500 * avg
     let tuc : ℚ := (cd : ℚ) * (1 / 10)
     let c := state_name_to_number name
     let s1 := (trackerCore s (some m) (some m) t0 name cd).1
     ((c = 2 ∨ c = 3) →
        s1.gECurr = some (-1) ∧ s1.gSNext = some tuc ∧ s1.gENext = some (tuc + ngd)) ∧
     ((c = 7 ∨ c = 8 ∨ c = 9) →
        s1.gECurr = some (-1) ∧ s1.gSNext = some (tuc + 50) ∧
          s1.gENext = some (tuc + 50 + ngd)) ∧
     ((c = 4 ∨ c = 5 ∨ c = 6) →
        s1.gECurr = some tuc ∧ s1.gSNext = some (tuc + 100) ∧
          s1.gENext = some (tuc + 100 + ngd))) := by
  simp only [trackerCore_update s m t0 name cd lt hInit hlt hch]
  refine ⟨fun hc => ?_, fun hc => ?_, fun hc => ?_⟩
  · rcases hc with h | h <;> rw [h] <;>
      norm_num [estimate_green_window_from_countdown]
  · rcases hc with h | h | h <;> rw [h] <;>
      norm_num [estimate_green_window_from_countdown]
  · rcases hc with h | h | h <;> rw [h] <;>
      norm_num [estimate_green_window_from_countdown]

/-- A concrete initialized tracker state used by witnesses: last countdown 300
observed at time 0, two history entries, and a cached estimate. -/
def trackerReady : TrackerState :=
  ⟨true, some 300, some 0, [1 / 10, 1 / 10], some (-1), some 1, some 2⟩

/-- Witness for `tracker_estimate_table`: a green-phase ingest
("pre-Movement", countdown 200, average tick 0.1) yields `g_e_curr = 20`,
`g_s_next = 120`, `g_e_next = 170` — the worked example of the spec. -/
theorem tracker_estimate_table_witness :
    trackerReady.lastCdTick ≠ some 200 ∧
    (trackerCore trackerReady (some 1) (some 1) (1 / 10) ("pre-Movement") 200).1.gECurr =
      some 20 ∧
    (trackerCore trackerReady (some 1) (some 1) (1 / 10) ("pre-Movement") 200).1.gSNext =
      some 120 ∧
    (trackerCore trackerReady (some 1) (some 1) (1 / 10) ("pre-Movement") 200).1.gENext =
      some 170 := by
  have h := (tracker_estimate_table trackerReady 1 (1 / 10) ("pre-Movement") 200 0 rfl rfl
    (by with_unfolding_all decide)).2.2 (by with_unfolding_all decide)
  exact ⟨by with_unfolding_all decide, h.1.trans (by with_unfolding_all rfl),
    h.2.1.trans (by with_unfolding_all rfl), h.2.2.trans (by with_unfolding_all rfl)⟩

/-- Helper: a `Core` cycle with matching IDs, initialized tick attribute, and
an unchanged countdown returns the state unchanged and re-emits the cached
estimate (output withheld only if some cached field is Python `None`). -/
theorem trackerCore_unchanged (s : TrackerState) (m t0 : ℚ) (name : String) (cd : ℤ)
    (hInit : s.hasTick = true) (hcd : s.lastCdTick = some cd) :
    trackerCore s (some m) (some m) t0 name cd =
      (s, match s.gECurr, s.gSNext, s.gENext with
          | some gc, some gs, some ge => some (gc, gs, ge, state_name_to_number name)
          | _, _, _ => none) := by
  simp only [trackerCore]
  rw [if_neg (show ¬ m ≠ m from fun h => h rfl)]
  simp only [hInit, if_true, if_neg (not_not_intro hcd)]
  split <;> rfl

/-- Helper: the complete result of a `Core` cycle with matching IDs,
initialized tick attribute and a changed countdown. -/
theorem trackerCore_changed (s : TrackerState) (m t0 : ℚ) (name : String) (cd : ℤ)
    (hInit : s.hasTick = true) (hch : s.lastCdTick ≠ some cd) :
    trackerCore s (some m) (some m) t0 name cd =
      (let ticks :=
        match s.lastTickTime with
        | some lt =>
          (let l := s.tickIntervals ++ [t0 - lt]; if 20 < l.length then l.drop 1 else l)
        | none => s.tickIntervals
       let avg0 : ℚ := if ticks = [] then 1 / 10 else ticks.sum / (ticks.length : ℚ)
       let avg : ℚ := if avg0 < 2 / 25 then 1 / 10 else avg0
       let est := estimate_green_window_from_countdown t0 (state_name_to_number name) cd
         (500 * avg)
       let s2 : TrackerState := ⟨true, some cd, some t0, ticks, est.2.2, est.1, est.2.1⟩
       (s2, match est.2.2, est.1, est.2.1 with
            | some gc, some gs, some ge => some (gc, gs, ge, state_name_to_number name)
            | _, _, _ => none)) := by
  simp only [trackerCore]
  rw [if_neg (show ¬ m ≠ m from fun h => h rfl)]
  simp only [hInit, if_true, if_pos hch]
  split <;> rfl

/-- A concrete initialized tracker state holding a cached estimate, used by
the C3 theorems. -/
def trackerCached : TrackerState :=
  ⟨true, some 100, some 0, [1 / 10], some 20, some 120, some 170⟩

/-- Counterexample to claim C3 as stated: an unsupported-phase ingest
("unavailable") whose countdown differs from the last observed value does NOT
retain the previously cached estimate — the cache `g_e_curr = 20` is
overwritten with Python `None` — although no output is written that cycle. -/
theorem tracker_unsupported_clobbers_cache :
    trackerCached.gECurr = some 20 ∧
    (trackerCore trackerCached (some 1) (some 1) 5 ("unavailable") 99).1.gECurr = none ∧
    (trackerCore trackerCached (some 1) (some 1) 5 ("unavailable") 99).2 = none :=
  ⟨rfl, by with_unfolding_all rfl, by with_unfolding_all rfl⟩

/-- Claim C3 as amended: on an ingest whose phase is unavailable, dark, or
unrecognized (codes 0, 1, -1), the tracker produces no new estimate, but
retention depends on the countdown: if the countdown is unchanged the whole
state is retained and the previously cached estimate is re-emitted; if the
countdown changed, the cached estimate is OVERWRITTEN with Python `None`
(not retained) and the output is withheld — later cycles see no prior values
until a recognized phase with a changed countdown recomputes them. -/
theorem tracker_unsupported_phase (s : TrackerState) (m t0 : ℚ) (name : String) (cd : ℤ)
    (hInit : s.hasTick = true)
    (hUnsup : state_name_to_number name = 0 ∨ state_name_to_number name = 1 ∨
       state_name_to_number name = -1) :
    (s.lastCdTick = some cd →
       trackerCore s (some m) (some m) t0 name cd =
         (s, match s.gECurr, s.gSNext, s.gENext with
             | some gc, some gs, some ge => some (gc, gs, ge, state_name_to_number name)
             | _, _, _ => none)) ∧
    (s.lastCdTick ≠ some cd →
       (trackerCore s (some m) (some m) t0 name cd).1.gECurr = none ∧
       (trackerCore s (some m) (some m) t0 name cd).1.gSNext = none ∧
       (trackerCore s (some m) (some m) t0 name cd).1.gENext = none ∧
       (trackerCore s (some m) (some m) t0 name cd).2 = none) := by
  constructor
  · intro hcd
    exact trackerCore_unchanged s m t0 name cd hInit hcd
  · intro hch
    rw [trackerCore_changed s m t0 name cd hInit hch]
    rcases hUnsup with h | h | h <;> rw [h] <;>
      norm_num [estimate_green_window_from_countdown]

/-- Witness for `tracker_unsupported_phase`: a concrete "dark" ingest with a
changed countdown clears the cache and withholds output. -/
theorem tracker_unsupported_phase_witness :
    trackerCached.lastCdTick ≠ some 99 ∧
    (trackerCore trackerCached (some 1) (some 1) 5 ("dark") 99).1.gECurr = none ∧
    (trackerCore trackerCached (some 1) (some 1) 5 ("dark") 99).2 = none := by
  have h := (tracker_unsupported_phase trackerCached 1 5 ("dark") 99 rfl
    (Or.inr (Or.inl (by with_unfolding_all decide)))).2 (by with_unfolding_all decide)
  exact ⟨by with_unfolding_all decide, h.1, h.2.2.2⟩

/-- Claim C9: after any `Core` cycle the tick-interval history holds at most 20
entries (given it did before), and on a cycle whose countdown equals the last
observed value the state — history, average inputs, and cached estimate — is
unchanged and the previously cached estimate is what gets re-emitted. -/
theorem tracker_history_cap_and_stability (s : TrackerState) (idm ids2 : Option ℚ)
    (t0 : ℚ) (name : String) (cd : ℤ) (hcap : s.tickIntervals.length ≤ 20) :
    ((trackerCore s idm ids2 t0 name cd).1.tickIntervals.length ≤ 20) ∧
    (∀ m, idm = some m → ids2 = some m → s.hasTick = true → s.lastCdTick = some cd →
      trackerCore s idm ids2 t0 name cd =
        (s, match s.gECurr, s.gSNext, s.gENext with
            | some gc, some gs, some ge => some (gc, gs, ge, state_name_to_number name)
            | _, _, _ => none)) := by
  constructor
  · rcases idm with _ | im
    · simpa [trackerCore] using hcap
    rcases ids2 with _ | isp
    · simpa [trackerCore] using hcap
    by_cases him : im ≠ isp
    · simpa [trackerCore, him] using hcap
    by_cases ht : s.hasTick
    · by_cases hch : s.lastCdTick ≠ some cd
      · have him2 : im = isp := not_not.1 him
        subst him2
        rw [trackerCore_changed s im t0 name cd ht hch]
        rcases hl : s.lastTickTime with _ | lt <;> simp only [hl]
        · exact hcap
        · split
          · show ((s.tickIntervals ++ [t0 - lt]).drop 1).length ≤ 20
            simp only [List.length_drop, List.length_append, List.length_singleton]
            omega
          · rename_i hle
            show (s.tickIntervals ++ [t0 - lt]).length ≤ 20
            simp only [not_lt] at hle
            exact hle
      · have him2 : im = isp := not_not.1 him
        subst him2
        rw [trackerCore_unchanged s im t0 name cd ht (not_not.1 hch)]
        exact hcap
    · simp only [trackerCore, if_neg him]
      simp only [Bool.not_eq_true] at ht
      simp only [ht, if_false]
      split <;> simp
  · intro m h1 h2 h3 h4
    subst h1; subst h2
    exact trackerCore_unchanged s m t0 name cd h3 h4

/-- Witness for `tracker_history_cap_and_stability`: a red-phase ingest with an
unchanged countdown (300) keeps the history within the cap, leaves the state
unchanged, and re-emits the cached estimate. -/
theorem tracker_history_cap_and_stability_witness :
    trackerReady.tickIntervals.length ≤ 20 ∧
    (trackerCore trackerReady (some 1) (some 1) 7 ("stop-And-Remain")
        300).1.tickIntervals.length ≤ 20 ∧
    trackerCore trackerReady (some 1) (some 1) 7 ("stop-And-Remain") 300 =
      (trackerReady, some (-1, 1, 2, 3)) := by
  have h := tracker_history_cap_and_stability trackerReady (some 1) (some 1) 7
    ("stop-And-Remain") 300 (by decide)
  exact ⟨by decide, h.1, (h.2 1 rfl rfl rfl rfl).trans (by with_unfolding_all rfl)⟩
